import Mathlib

/-!
Verification of the `either` Rust crate (a two-variant sum type `Either<L, R>`
with forwarding adapters) against its natural-language specification.

Each Rust item used by a claim is shallowly embedded as a Lean definition,
translated directly from the source: `Either<L, R>` is an inductive with
constructors `Left` and `Right`, Rust's `Result` is an inductive with `Ok` and
`Err`, Rust's `Option` is Lean's `Option`, and panicking extraction methods
return `Except String` carrying the panic message.
-/

/-- Rust `enum Either<L, R> { Left(L), Right(R) }` from `src/lib.rs`. -/
inductive Either (L R : Type) where
  | Left (x : L)
  | Right (x : R)
deriving DecidableEq, Repr

/-- Rust `enum Result<T, E> { Ok(T), Err(E) }` (the standard library type the
crate converts to and from). -/
inductive Result (T E : Type) where
  | Ok (x : T)
  | Err (x : E)
deriving DecidableEq, Repr

/-- Rust `core::task::Poll<T>`: the outcome of one poll step of a future. -/
inductive Poll (T : Type) where
  | Ready (x : T)
  | Pending
deriving DecidableEq, Repr

/-- `Poll::map`: applies a function to the value of `Ready`; `Pending` is
passed through. -/
def Poll.map (f : A → B) : Poll A → Poll B
  | .Ready x => .Ready (f x)
  | .Pending => .Pending

namespace Either

/-- `Either::is_left` from `src/lib.rs`: `true` exactly on `Left`. -/
def is_left : Either L R → Bool
  | .Left _ => true
  | .Right _ => false

/-- `Either::is_right` from `src/lib.rs`: `true` exactly on `Right`. -/
def is_right : Either L R → Bool
  | .Left _ => false
  | .Right _ => true

/-- The expansion of `derive(PartialEq)` on `Either` (`src/lib.rs` line 66):
values with different tags are unequal; with equal tags, equality is the
payload type's equality, passed here as `beqL` / `beqR`. -/
def beq (beqL : L → L → Bool) (beqR : R → R → Bool) :
    Either L R → Either L R → Bool
  | .Left a, .Left b => beqL a b
  | .Right a, .Right b => beqR a b
  | .Left _, .Right _ => false
  | .Right _, .Left _ => false

/-- The expansion of `derive(PartialOrd, Ord)` on `Either` (`src/lib.rs`
line 66): the declaration-order variant tag is compared first (`Left` before
`Right`), and equal tags delegate to the payload type's comparison, passed
here as `cmpL` / `cmpR`. -/
def cmp (cmpL : L → L → Ordering) (cmpR : R → R → Ordering) :
    Either L R → Either L R → Ordering
  | .Left a, .Left b => cmpL a b
  | .Left _, .Right _ => .lt
  | .Right _, .Left _ => .gt
  | .Right a, .Right b => cmpR a b

/-- The expansion of `derive(Hash)` on `Either` (`src/lib.rs` line 66),
modelling the hasher as the stream of words written to it: the variant's
discriminant (0 for `Left`, 1 for `Right`) is written first, then the
payload's own hash writes (`hL` / `hR`) follow. -/
def hashWrites (hL : L → List Nat) (hR : R → List Nat) :
    Either L R → List Nat
  | .Left x => 0 :: hL x
  | .Right x => 1 :: hR x

/-- `Either::flip` from `src/lib.rs` (lines 1043-1050): swaps the variants. -/
def flip : Either L R → Either R L
  | .Left x => .Right x
  | .Right x => .Left x

/-- `Either::<Option<L>, Option<R>>::transpose` from `src/option.rs`
(lines 14-21): `Left x => x.map(Left)`, `Right x => x.map(Right)`. -/
def transpose : Either (Option L) (Option R) → Option (Either L R)
  | .Left x => x.map .Left
  | .Right x => x.map .Right

end Either

/-- `unwrap_failed` from `src/lib.rs` (lines 1738-1745): builds the panic
message `panic!("{message}: {value:?}")` — the passed message, a colon-space
separator, and the offending payload's `Debug` text (`value` here is already
the payload's `Debug` rendering). The panic itself is modelled by the caller
returning `Except.error` with this message. -/
def unwrap_failed (message : String) (value : String) : String :=
  message ++ ": " ++ value

namespace Either

/-- `Either::left_expect` from `src/lib.rs` (lines 770-781): returns the
`Left` payload, or panics via `unwrap_failed` on `Right`. The payload's
`Debug` instance is passed as `dbg`; a panic is modelled as `Except.error`
carrying the panic message. -/
def left_expect (dbg : R → String) (e : Either L R) (message : String) :
    Except String L :=
  match e with
  | .Left x => .ok x
  | .Right x => .error (unwrap_failed message (dbg x))

/-- `Either::right_expect` from `src/lib.rs`: returns the `Right` payload, or
panics via `unwrap_failed` on `Left`. -/
def right_expect (dbg : L → String) (e : Either L R) (message : String) :
    Except String R :=
  match e with
  | .Left x => .error (unwrap_failed message (dbg x))
  | .Right x => .ok x

/-- `Either::left_unwrap` from `src/lib.rs` (lines 825-830):
`self.left_expect("\x60Either::left_unwrap()\x60 is called on \x60Right\x60")`. -/
def left_unwrap (dbg : R → String) (e : Either L R) : Except String L :=
  left_expect dbg e "`Either::left_unwrap()` is called on `Right`"

/-- `Either::right_unwrap` from `src/lib.rs`:
`self.right_expect("\x60Either::right_unwrap()\x60 is called on \x60Left\x60")`. -/
def right_unwrap (dbg : L → String) (e : Either L R) : Except String R :=
  right_expect dbg e "`Either::right_unwrap()` is called on `Left`"

/-- `Either::left_or_insert_with` from `src/lib.rs` (lines 1499-1519). The
Rust method mutates `&mut self` and returns `&mut L`; the embedding returns
(container state after the call, the payload the returned reference denotes,
the number of times `f` was invoked). On `Left x` the container is untouched
and `f` is never called; on `Right x` the live payload `x` is read out
(`ptr::read`), `f` is applied to it exactly once, and `Left (f x)` is written
back (`ptr::write`), the reference denoting the freshly written payload. -/
def left_or_insert_with (e : Either L R) (f : R → L) :
    Either L R × L × Nat :=
  match e with
  | .Left x => (.Left x, x, 0)
  | .Right x => (.Left (f x), f x, 1)

/-- `Either::right_or_insert_with` from `src/lib.rs` (lines 1523-1543),
embedded the same way as `Either.left_or_insert_with`. -/
def right_or_insert_with (e : Either L R) (f : L → R) :
    Either L R × R × Nat :=
  match e with
  | .Left x => (.Right (f x), f x, 1)
  | .Right x => (.Right x, x, 0)

/-- `impl Extend<A> for Either<L, R>` from `src/iter.rs` (lines 61-72): the
call is forwarded to the live payload's own `extend` (passed as `extL` /
`extR`, taking the payload state and the items and returning the extended
payload state); the tag is untouched. -/
def extend (extL : L → List A → L) (extR : R → List A → R)
    (e : Either L R) (it : List A) : Either L R :=
  match e with
  | .Left x => .Left (extL x it)
  | .Right x => .Right (extR x it)

/-- `impl Future for Either<L, R>` from `src/future.rs` (lines 10-24): one
poll step forwards to the live payload's own poll step (`pollL` / `pollR`,
the waker context elided as opaque) and wraps a ready output in the tag that
was matched: `Left(x) => x.poll(cx).map(Left)`. -/
def poll (pollL : L → Poll A) (pollR : R → Poll B) :
    Either L R → Poll (Either A B)
  | .Left x => (pollL x).map .Left
  | .Right x => (pollR x).map .Right

end Either

/-- The method surface of `serde::ser::Error` (the constructors a
serialization error type must provide), with the message type rendered as
`String`. -/
structure SerError (E : Type) where
  custom : String → E

/-- `impl serde::ser::Error for Either<L, R>` from `src/ser.rs` (lines
15-23): `custom(msg)` is `Left(L::custom(msg))`. -/
def serErrorEither (eL : SerError L) (_eR : SerError R) :
    SerError (Either L R) where
  custom msg := .Left (eL.custom msg)

/-- The method surface of `serde::de::Error` (the constructors a
deserialization error type must provide). `Unexpected` and `Expected`
arguments are opaque type parameters `U` and `X`; field and variant names are
`String`s, and `invalid_length`'s length is a `Nat`. -/
structure DeError (U X E : Type) where
  custom : String → E
  invalid_type : U → X → E
  invalid_value : U → X → E
  invalid_length : Nat → X → E
  unknown_variant : String → List String → E
  unknown_field : String → List String → E
  missing_field : String → E
  duplicate_field : String → E

/-- `impl serde::de::Error for Either<L, R>` from `src/de.rs` (lines 15-58):
every constructor builds the corresponding `L`-side error and wraps it in
`Left`. -/
def deErrorEither (eL : DeError U X L) (_eR : DeError U X R) :
    DeError U X (Either L R) where
  custom msg := .Left (eL.custom msg)
  invalid_type unexp exp := .Left (eL.invalid_type unexp exp)
  invalid_value unexp exp := .Left (eL.invalid_value unexp exp)
  invalid_length len exp := .Left (eL.invalid_length len exp)
  unknown_variant variant expected := .Left (eL.unknown_variant variant expected)
  unknown_field field expected := .Left (eL.unknown_field field expected)
  missing_field field := .Left (eL.missing_field field)
  duplicate_field field := .Left (eL.duplicate_field field)

namespace convert

/-- `impl From<Either<(T, L), (T, R)>> for (T, Either<L, R>)` from
`src/convert.rs` (lines 50-58). -/
def from_shared_fst : Either (T × L) (T × R) → T × Either L R
  | .Left (x, y) => (x, .Left y)
  | .Right (x, y) => (x, .Right y)

/-- `impl From<Either<(L, T), (R, T)>> for (Either<L, R>, T)` from
`src/convert.rs` (lines 60-68). -/
def from_shared_snd : Either (L × T) (R × T) → Either L R × T
  | .Left (x, y) => (.Left x, y)
  | .Right (x, y) => (.Right x, y)

/-- `impl From<Either<Option<L>, Option<R>>> for Option<Either<L, R>>` from
`src/convert.rs` (lines 70-79). -/
def from_either_options : Either (Option L) (Option R) → Option (Either L R)
  | .Left (some x) => some (.Left x)
  | .Right (some x) => some (.Right x)
  | .Left none => none
  | .Right none => none

/-- `impl From<Either<Result<T1, E1>, Result<T2, E2>>> for
Result<Either<T1, T2>, Either<E1, E2>>` from `src/convert.rs`
(lines 103-115): the Result-transpose conversion, Either-to-Result
direction. -/
def from_either_results :
    Either (Result T1 E1) (Result T2 E2) → Result (Either T1 T2) (Either E1 E2)
  | .Left (.Ok x) => .Ok (.Left x)
  | .Left (.Err x) => .Err (.Left x)
  | .Right (.Ok x) => .Ok (.Right x)
  | .Right (.Err x) => .Err (.Right x)

/-- `impl From<Result<Either<T1, T2>, Either<E1, E2>>> for
Either<Result<T1, E1>, Result<T2, E2>>` from `src/convert.rs`
(lines 117-129): the Result-transpose conversion, Result-to-Either
direction. -/
def from_result_eithers :
    Result (Either T1 T2) (Either E1 E2) → Either (Result T1 E1) (Result T2 E2)
  | .Ok (.Left x) => .Left (.Ok x)
  | .Ok (.Right x) => .Right (.Ok x)
  | .Err (.Left x) => .Left (.Err x)
  | .Err (.Right x) => .Right (.Err x)

end convert

/-!
## Theorems, one per claim
-/

/-- C1: transposition is an involution. Converting any
`Either (Result T1 E1) (Result T2 E2)` into
`Result (Either T1 T2) (Either E1 E2)` and back yields the original value,
and symmetrically starting from any `Result (Either T1 T2) (Either E1 E2)`.
(For the Option-to-Either transposition the crate defines no inverse
conversion, so no round-trip is required there.) -/
theorem transpose_result_involution :
    (∀ (T1 T2 E1 E2 : Type) (x : Either (Result T1 E1) (Result T2 E2)),
      convert.from_result_eithers (convert.from_either_results x) = x) ∧
    (∀ (T1 T2 E1 E2 : Type) (y : Result (Either T1 T2) (Either E1 E2)),
      convert.from_either_results (convert.from_result_eithers y) = y) := by
  constructor
  · intro T1 T2 E1 E2 x
    rcases x with (a | a) | (a | a) <;> rfl
  · intro T1 T2 E1 E2 y
    rcases y with (a | a) | (a | a) <;> rfl

/-- C2: comparison of `Either` values is lexicographic on (tag, payload).
`Left a` compares below `Right b` for all payloads, and two values with the
same tag compare (for equality and ordering) exactly as their payloads do;
hashing writes the tag's discriminant and then delegates to the payload's
hash. -/
theorem lexicographic_tag_payload_order :
    ∀ (L R : Type)
      (beqL : L → L → Bool) (beqR : R → R → Bool)
      (cmpL : L → L → Ordering) (cmpR : R → R → Ordering)
      (hL : L → List Nat) (hR : R → List Nat)
      (a a' : L) (b b' : R),
      Either.cmp cmpL cmpR (.Left a) (.Right b) = .lt ∧
      Either.cmp cmpL cmpR (.Right b) (.Left a) = .gt ∧
      Either.cmp cmpL cmpR (.Left a) (.Left a') = cmpL a a' ∧
      Either.cmp cmpL cmpR (.Right b) (.Right b') = cmpR b b' ∧
      Either.beq beqL beqR (.Left a) (.Left a') = beqL a a' ∧
      Either.beq beqL beqR (.Right b) (.Right b') = beqR b b' ∧
      Either.beq beqL beqR (.Left a) (.Right b) = false ∧
      Either.hashWrites hL hR (.Left a) = 0 :: hL a ∧
      Either.hashWrites hL hR (.Right b) = 1 :: hR b := by
  intro L R beqL beqR cmpL cmpR hL hR a a' b b'
  exact ⟨rfl, rfl, rfl, rfl, rfl, rfl, rfl, rfl, rfl⟩

/-- C3: `left_unwrap` on `Left v` returns `v` without panicking; on
`Right x` it panics and the panic message contains the `Debug` representation
of `x` (the message is some prefix followed by `dbg x` followed by some
suffix); symmetrically for `right_unwrap` on `Left`. -/
theorem unwrap_behaviour :
    ∀ (L R : Type) (dbgR : R → String) (dbgL : L → String) (v : L) (x : R),
      Either.left_unwrap dbgR (Either.Left v : Either L R) = .ok v ∧
      (∃ msg, Either.left_unwrap dbgR (Either.Right x : Either L R) =
          .error msg ∧ ∃ pre post, msg = pre ++ dbgR x ++ post) ∧
      Either.right_unwrap dbgL (Either.Right x : Either L R) = .ok x ∧
      (∃ msg, Either.right_unwrap dbgL (Either.Left v : Either L R) =
          .error msg ∧ ∃ pre post, msg = pre ++ dbgL v ++ post) := by
  intro L R dbgR dbgL v x
  refine ⟨rfl, ⟨_, rfl, ?_⟩, rfl, ⟨_, rfl, ?_⟩⟩
  · exact ⟨"`Either::left_unwrap()` is called on `Right`" ++ ": ", "", by
      simp [unwrap_failed]⟩
  · exact ⟨"`Either::right_unwrap()` is called on `Left`" ++ ": ", "", by
      simp [unwrap_failed]⟩

/-- C4: the Result-transpose conversion keeps the side tag on both success
and error payloads: `Left (Ok x) ↦ Ok (Left x)`, `Right (Ok x) ↦ Ok (Right x)`,
`Left (Err e) ↦ Err (Left e)`, `Right (Err e) ↦ Err (Right e)`; in particular
`Left (Ok 5) ↦ Ok (Left 5)` and `Right (Ok 5) ↦ Ok (Right 5)` at
`i32`-success / string-error payloads. -/
theorem result_transpose_mapping :
    ∀ (T1 T2 E1 E2 : Type) (x : T1) (y : T2) (e1 : E1) (e2 : E2),
      convert.from_either_results
          (Either.Left (.Ok x) : Either (Result T1 E1) (Result T2 E2)) =
        .Ok (.Left x) ∧
      convert.from_either_results
          (Either.Right (.Ok y) : Either (Result T1 E1) (Result T2 E2)) =
        .Ok (.Right y) ∧
      convert.from_either_results
          (Either.Left (.Err e1) : Either (Result T1 E1) (Result T2 E2)) =
        .Err (.Left e1) ∧
      convert.from_either_results
          (Either.Right (.Err e2) : Either (Result T1 E1) (Result T2 E2)) =
        .Err (.Right e2) ∧
      convert.from_either_results
          (Either.Left (.Ok 5) : Either (Result Int String) (Result Int String)) =
        .Ok (.Left 5) ∧
      convert.from_either_results
          (Either.Right (.Ok 5) : Either (Result Int String) (Result Int String)) =
        .Ok (.Right 5) := by
  intro T1 T2 E1 E2 x y e1 e2
  exact ⟨rfl, rfl, rfl, rfl, rfl, rfl⟩

/-- C5: every generic error constructor of the serialization adapter's
`Either` error type — `custom` in both the serializer and deserializer error
impls, and the deserializer's `invalid_type`, `invalid_value`,
`invalid_length`, `unknown_variant`, `unknown_field`, `missing_field`, and
`duplicate_field` — produces `Left` applied to the corresponding constructor
of the left error type, never a `Right`-tagged error. -/
theorem adapter_errors_left_tagged :
    ∀ (U X L R : Type) (sL : SerError L) (sR : SerError R)
      (eL : DeError U X L) (eR : DeError U X R)
      (msg fld variant : String) (u : U) (x : X) (len : Nat)
      (expected : List String),
      (serErrorEither sL sR).custom msg = .Left (sL.custom msg) ∧
      (deErrorEither eL eR).custom msg = .Left (eL.custom msg) ∧
      (deErrorEither eL eR).invalid_type u x = .Left (eL.invalid_type u x) ∧
      (deErrorEither eL eR).invalid_value u x = .Left (eL.invalid_value u x) ∧
      (deErrorEither eL eR).invalid_length len x =
        .Left (eL.invalid_length len x) ∧
      (deErrorEither eL eR).unknown_variant variant expected =
        .Left (eL.unknown_variant variant expected) ∧
      (deErrorEither eL eR).unknown_field fld expected =
        .Left (eL.unknown_field fld expected) ∧
      (deErrorEither eL eR).missing_field fld = .Left (eL.missing_field fld) ∧
      (deErrorEither eL eR).duplicate_field fld =
        .Left (eL.duplicate_field fld) ∧
      Either.is_right ((serErrorEither sL sR).custom msg) = false ∧
      Either.is_right ((deErrorEither eL eR).custom msg) = false ∧
      Either.is_right ((deErrorEither eL eR).invalid_type u x) = false ∧
      Either.is_right ((deErrorEither eL eR).missing_field fld) = false := by
  intro U X L R sL sR eL eR msg fld variant u x len expected
  exact ⟨rfl, rfl, rfl, rfl, rfl, rfl, rfl, rfl, rfl, rfl, rfl, rfl, rfl⟩

/-- C6: `left_or_insert_with f` on `Left x` leaves the container unchanged
and never calls `f`; on `Right y` it replaces the container with
`Left (f y)`, where `f` is applied exactly once to the previously live
payload `y`; in both cases the returned reference denotes the `Left` payload
held in the container after the call. Symmetrically for
`right_or_insert_with`. -/
theorem or_insert_with_behaviour :
    ∀ (L R : Type) (x : L) (y : R) (f : R → L) (g : L → R),
      Either.left_or_insert_with (Either.Left x : Either L R) f =
        (.Left x, x, 0) ∧
      Either.left_or_insert_with (Either.Right y : Either L R) f =
        (.Left (f y), f y, 1) ∧
      (∀ e : Either L R,
        (Either.left_or_insert_with e f).1 =
          .Left (Either.left_or_insert_with e f).2.1) ∧
      Either.right_or_insert_with (Either.Right y : Either L R) g =
        (.Right y, y, 0) ∧
      Either.right_or_insert_with (Either.Left x : Either L R) g =
        (.Right (g x), g x, 1) ∧
      (∀ e : Either L R,
        (Either.right_or_insert_with e g).1 =
          .Right (Either.right_or_insert_with e g).2.1) := by
  intro L R x y f g
  refine ⟨rfl, rfl, ?_, rfl, rfl, ?_⟩
  · intro e; rcases e with a | a <;> rfl
  · intro e; rcases e with a | a <;> rfl

/-- C7: forwarding adapter operations never change the variant tag:
`Extend::extend` leaves the container with the same tag it had before the
call, and `Future::poll` wraps a `Left` input's poll result in `Left` and a
`Right` input's poll result in `Right` (a pending result stays pending). -/
theorem adapters_preserve_tag :
    ∀ (A B C L R : Type) (extL : L → List A → L) (extR : R → List A → R)
      (e : Either L R) (it : List A)
      (pollL : L → Poll B) (pollR : R → Poll C) (x : L) (y : R),
      Either.is_left (Either.extend extL extR e it) = Either.is_left e ∧
      Either.is_right (Either.extend extL extR e it) = Either.is_right e ∧
      Either.poll pollL pollR (Either.Left x : Either L R) =
        (pollL x).map .Left ∧
      Either.poll pollL pollR (Either.Right y : Either L R) =
        (pollR y).map .Right := by
  intro A B C L R extL extR e it pollL pollR x y
  refine ⟨?_, ?_, rfl, rfl⟩ <;> rcases e with a | a <;> rfl

/-- C8: `flip` is an involution — `x.flip().flip() == x` for every `x` — and
maps `Left v` to `Right v` and `Right v` to `Left v` without altering the
payload. -/
theorem flip_involution :
    ∀ (L R : Type) (x : Either L R) (v : L) (w : R),
      x.flip.flip = x ∧
      Either.flip (Either.Left v : Either L R) = .Right v ∧
      Either.flip (Either.Right w : Either L R) = .Left w := by
  intro L R x v w
  refine ⟨?_, rfl, rfl⟩
  rcases x with a | a <;> rfl

/-- C9: the Option transposition maps `Left (some x)` to `some (Left x)` and
`Right (some x)` to `some (Right x)`, but sends both `Left none` and
`Right none` to the same value `none` (as does the equivalent `From`
conversion in `convert.rs`); consequently it is not injective and no function
can invert it. -/
theorem option_transpose_forgets_tag :
    ∀ (L R : Type) (x : L) (y : R),
      Either.transpose (Either.Left (some x) : Either (Option L) (Option R)) =
        some (.Left x) ∧
      Either.transpose (Either.Right (some y) : Either (Option L) (Option R)) =
        some (.Right y) ∧
      Either.transpose (Either.Left none : Either (Option L) (Option R)) =
        none ∧
      Either.transpose (Either.Right none : Either (Option L) (Option R)) =
        none ∧
      convert.from_either_options
        (Either.Left (some x) : Either (Option L) (Option R)) =
        some (.Left x) ∧
      convert.from_either_options
        (Either.Right (some y) : Either (Option L) (Option R)) =
        some (.Right y) ∧
      convert.from_either_options
        (Either.Left none : Either (Option L) (Option R)) = none ∧
      convert.from_either_options
        (Either.Right none : Either (Option L) (Option R)) = none ∧
      ¬ ∃ g : Option (Either Nat Nat) → Either (Option Nat) (Option Nat),
          ∀ e, g (Either.transpose e) = e := by
  intro L R x y
  refine ⟨rfl, rfl, rfl, rfl, rfl, rfl, rfl, rfl, ?_⟩
  rintro ⟨g, hg⟩
  have h1 := hg (Either.Left none)
  have h2 := hg (Either.Right none)
  rw [show Either.transpose (Either.Left none :
        Either (Option Nat) (Option Nat)) = none from rfl] at h1
  rw [show Either.transpose (Either.Right none :
        Either (Option Nat) (Option Nat)) = none from rfl] at h2
  exact absurd (h1 ▸ h2) (by simp)

/-- C10: the tuple factorization conversions extract the shared component
without disturbing it or the tag: `Left (t, v) ↦ (t, Left v)` and
`Right (t, v) ↦ (t, Right v)` for the shared-first-component conversion, and
`Left (v, t) ↦ (Left v, t)` and `Right (v, t) ↦ (Right v, t)` for the
shared-second-component conversion. -/
theorem tuple_factorization :
    ∀ (T L R : Type) (t : T) (v : L) (w : R),
      convert.from_shared_fst
        (Either.Left (t, v) : Either (T × L) (T × R)) = (t, .Left v) ∧
      convert.from_shared_fst
        (Either.Right (t, w) : Either (T × L) (T × R)) = (t, .Right w) ∧
      convert.from_shared_snd
        (Either.Left (v, t) : Either (L × T) (R × T)) = (.Left v, t) ∧
      convert.from_shared_snd
        (Either.Right (w, t) : Either (L × T) (R × T)) = (.Right w, t) := by
  intro T L R t v w
  exact ⟨rfl, rfl, rfl, rfl⟩
